import Mathlib

/-!
Shallow embedding of `src/prompt/_generic_prompt.ts` (the generic
interactive-prompt engine of deno-cliffy): the validation pipeline
(`#validateValue`, `#transformValue`), the execute loop (`#execute`),
settings assembly (`getDefaultSettings`), key matching (`isKey`),
event handling (`handleEvent`), the raw read cycle (`#readChar`,
`#readKey`) and the render line-count computation (`render` /
`getColumns`).

JavaScript values that flow through the pipeline are modelled by the
inductive `JSVal`; `undefined` is `JSVal.undef`, matching the source's
`typeof x !== "undefined"` checks.  The widget's abstract methods
(`transform`, `validate`, `getValue`) and the optional caller-supplied
handlers are explicit function parameters.  `async` is resolved away:
all modelled code is sequential and deterministic.
-/

/-- JavaScript value as it appears in the prompt pipeline.  `undef` plays the
role of `undefined`, which the source uses as the "unset" marker for
`#value`, `#lastError`, `settings.default` and `injectedValue`. -/
inductive JSVal where
  | undef
  | null
  | bool (b : Bool)
  | num (n : Int)
  | str (s : String)
deriving DecidableEq, Repr

/-- JavaScript truthiness (`!value` in `#validateValue` line 368):
`undefined`, `null`, `false`, `0` and `""` are falsy. -/
def JSVal.truthy : JSVal → Bool
  | .undef => false
  | .null => false
  | .bool b => b
  | .num n => n != 0
  | .str s => s != ""

/-- Truthiness of `#lastError : string | undefined` (used by the guard
`this.#lastError` in `#execute` line 138): `undefined` and `""` are falsy. -/
def strTruthy : Option String → Bool
  | none => false
  | some s => s != ""

/-- Model of `ValidateResult` (`string | boolean`, promises resolved
away): `true` accepts, `false` is a generic failure, a string is a specific
error message. -/
inductive ValidateResult where
  | bool (b : Bool)
  | str (s : String)
deriving DecidableEq, Repr

/-- The concrete widget's contract: the abstract methods of
`GenericPrompt` that a concrete prompt must override.  `transform` may
return `undefined` (here `JSVal.undef`). -/
structure Widget where
  transform : JSVal → JSVal
  validate : JSVal → ValidateResult
  getValue : JSVal

/-- The slice of `GenericPromptSettings` that the modelled code reads:
the optional default value and the optional caller-supplied
validate/transform handlers.  `dflt = JSVal.undef` means no default is
configured (`typeof this.settings.default !== "undefined"`). -/
structure Settings where
  dflt : JSVal := .undef
  validate : Option (JSVal → ValidateResult) := none
  transform : Option (JSVal → JSVal) := none

/-- The mutable per-invocation prompt state touched by the validation
pipeline: `#value : TValue | undefined` and `#lastError : string |
undefined`. -/
structure PState where
  value : JSVal := .undef
  lastError : Option String := none
deriving DecidableEq, Repr

/-- Model of `#transformValue` (lines 351-355): the caller-supplied
transform if present, else the widget's built-in transform. -/
def transformValue (s : Settings) (w : Widget) (value : JSVal) : JSVal :=
  match s.transform with
  | some f => f value
  | none => w.transform value

/-- The effective validator chosen in `#validateValue` (lines 376-379):
the caller-supplied validator if present, else the widget's built-in one. -/
def effValidate (s : Settings) (w : Widget) (value : JSVal) : ValidateResult :=
  match s.validate with
  | some f => f value
  | none => w.validate value

/-- Model of `#validateValue` (lines 367-388).  Default short-circuit: if the raw
value is falsy and a default is configured, store the default and return
(leaving `#lastError` untouched).  Otherwise clear `#value` and
`#lastError`, run the effective validator, and interpret the tri-state
result: `false` sets the generic error, a string is stored verbatim as
the error, anything else runs the transform and stores its result. -/
def validateValue (s : Settings) (w : Widget) (st : PState) (value : JSVal) :
    PState :=
  if value.truthy = false ∧ s.dflt ≠ .undef then
    { st with value := s.dflt }
  else
    let st1 : PState := { value := .undef, lastError := none }
    match effValidate s w value with
    | .bool false => { st1 with lastError := some "Invalid answer." }
    | .str e => { st1 with lastError := some e }
    | .bool true => { st1 with value := transformValue s w value }

/-- Exactly one of {error message set, resolved value set} holds in a
prompt state ("set" meaning not `undefined`). -/
def exactlyOne (st : PState) : Prop :=
  (st.value ≠ .undef ∧ st.lastError = none) ∨
  (st.value = .undef ∧ st.lastError ≠ none)

instance (st : PState) : Decidable (exactlyOne st) := by
  unfold exactlyOne; infer_instance

/-- The state of one prompt invocation as seen by `#execute`: the
process-wide injected-value slot (`GenericPrompt.injectedValue`, with
`JSVal.undef` meaning empty), the per-invocation `#value`/`#lastError`
pair, and the `#isFirstRun` flag. -/
structure ExecState where
  injected : JSVal := .undef
  ps : PState := {}
  isFirstRun : Bool := true

/-- Terminal outcome of `#execute`.  `fatalReplay` is the
`throw new Error(this.error())` on line 139 (carrying the recorded
`#lastError`); `internalFail` is the "internal error: failed to read
value" throw; `awaitTerminal` marks the model boundary where the loop
would read key events from the live terminal (no injected value);
`spin` means the given fuel was exhausted without reaching a terminal
outcome. -/
inductive ExecOutcome where
  | success (v : JSVal)
  | fatalReplay (err : Option String)
  | internalFail
  | awaitTerminal
  | spin
deriving DecidableEq, Repr

/-- Model of `#execute` (lines 136-168), restricted to the headless (injected
value) input path; reaching the live-terminal read is reported as
`awaitTerminal`.  Each iteration: abort if the slot is non-empty and
`#lastError` is truthy; render (clears `#isFirstRun`); clear
`#lastError`; read — with the slot non-empty this runs `#validateValue`
on the injected value and reports whether `#value` is set — and retry
on false; on a produced value clear the render, print the success line,
clear the injected slot and return the value.  Recursion is bounded by
`fuel`, standing in for the source's unbounded self-recursion. -/
def execute (s : Settings) (w : Widget) : Nat → ExecState → ExecOutcome × ExecState
  | 0, st => (.spin, st)
  | fuel + 1, st =>
    if st.injected ≠ .undef ∧ strTruthy st.ps.lastError then
      (.fatalReplay st.ps.lastError, st)
    else
      let st1 : ExecState := { st with isFirstRun := false }
      let st2 : ExecState := { st1 with ps := { st1.ps with lastError := none } }
      if st2.injected ≠ .undef then
        let ps1 := validateValue s w st2.ps st2.injected
        let st3 : ExecState := { st2 with ps := ps1 }
        if ps1.value = .undef then
          execute s w fuel st3
        else
          (.success ps1.value, { st3 with injected := .undef })
      else
        (.awaitTerminal, st2)

/-- Decoded key event (`KeyCode` of the external key decoder): optional
symbolic name, optional raw sequence, modifier flags. -/
structure KeyCode where
  name : Option String := none
  sequence : Option String := none
  ctrl : Bool := false
  meta : Bool := false
  shift : Bool := false
deriving DecidableEq, Repr

/-- Model of `GenericPromptKeys`: the key-binding map, holding an optional
`submit` binding list (`none` models an absent property). -/
structure GenericPromptKeys where
  submit : Option (List String) := none
deriving DecidableEq, Repr

/-- The `keys` field computed by `getDefaultSettings` (lines 114-117):
`{ submit: ["enter", "return"], ...(options.keys ?? {}) }` — the object
spread makes a caller-supplied `submit` binding replace the default
rather than merge with it. -/
def getDefaultSettingsKeys (optKeys : Option GenericPromptKeys) :
    GenericPromptKeys :=
  match optKeys with
  | none => { submit := some ["enter", "return"] }
  | some k =>
    match k.submit with
    | none => { submit := some ["enter", "return"] }
    | some ss => { submit := some ss }

/-- Model of `isKey` (lines 396-409) applied to the `submit` binding: the event
matches if the binding list exists and contains the event's symbolic
name or its raw sequence. -/
def isKeySubmit (keys : Option GenericPromptKeys) (event : KeyCode) : Bool :=
  match keys.bind GenericPromptKeys.submit with
  | none => false
  | some keyNames =>
    (match event.name with
     | some n => keyNames.contains n
     | none => false) ||
    (match event.sequence with
     | some sq => keyNames.contains sq
     | none => false)

/-- Observable actions emitted while handling one key event:
`clear` is `tty.cursorLeft.eraseDown`, `cursorShow` restores cursor
visibility, `exitProcess` is `Deno.exit`, `submitValidate` is the
`submit()` call (which runs `#validateValue(getValue())`). -/
inductive PromptAction where
  | clear
  | cursorShow
  | exitProcess (code : Nat)
  | submitValidate
deriving DecidableEq, Repr

/-- Model of `handleEvent` (lines 278-289) as the ordered trace of actions it
performs.  The `switch (true)` cases are tried in order: ctrl+c clears
the render, shows the cursor and exits with status 130; otherwise a
submit-binding match triggers `submit()`; any other event is ignored. -/
def handleEvent (keys : Option GenericPromptKeys) (event : KeyCode) :
    List PromptAction :=
  if event.name = some "c" ∧ event.ctrl = true then
    [.clear, .cursorShow, .exitProcess 130]
  else if isKeySubmit keys event then
    [.submitValidate]
  else
    []

/-- Terminal raw-mode flag, toggled by `reader.setRaw`. -/
structure TermState where
  raw : Bool
deriving DecidableEq, Repr

/-- Result of one `reader.read(buffer)` call: `bytes data` means the
read wrote `data` into the buffer and returned `nread = data.length`
(the reader writes at most the 8-byte buffer size); `eof` is a `null`
return (end of stream); `err` is a rejected read. -/
inductive ReadResult where
  | bytes (data : List Nat)
  | eof
  | err (msg : String)
deriving DecidableEq, Repr

/-- Model of `#readChar` (lines 321-343).  The fixed 8-byte buffer starts
zeroed.  If the reader is a TTY, raw mode is enabled before the read
and disabled after it; a rejected read propagates before the
`setRaw(false)` call.  A `null` read returns the whole (zeroed)
buffer; otherwise `buffer.subarray(0, nread)` returns the bytes read. -/
def readChar (isTty : Bool) (res : ReadResult) (t : TermState) :
    Except String (List Nat) × TermState :=
  let buffer : List Nat := List.replicate 8 0
  let t1 : TermState := if isTty then { raw := true } else t
  match res with
  | .err e => (.error e, t1)
  | .eof =>
    let t2 : TermState := if isTty then { raw := false } else t1
    (.ok buffer, t2)
  | .bytes data =>
    let t2 : TermState := if isTty then { raw := false } else t1
    (.ok (data.take 8), t2)

/-- Model of `#readKey` (lines 315-319): parse the bytes from `#readChar`
into key events when non-empty, else report no events.  `parse` is the
external key decoder. -/
def readKey (parse : List Nat → List KeyCode) (data : List Nat) :
    List KeyCode :=
  if data.length ≠ 0 then parse data else []

/-- JavaScript truthiness of the `getColumns()` result
(`number | null`): `null` and `0` are falsy. -/
def columnsTruthy : Option Nat → Bool
  | none => false
  | some w => w != 0

/-- The visual line count computed in `render` (lines 182-188).
`strip` is the external `stripColor` (escape sequences excluded from
width); `columns` is the `getColumns()` result (`none` when the
terminal width cannot be determined).  With a truthy column count each
logical line of printable length `L` contributes
`Math.ceil(L / columns)` when `L > columns` and `1` otherwise; with no
column count the count is the number of newline-separated logical
lines. -/
def renderLinesCount (strip : String → String) (columns : Option Nat)
    (content : String) : Nat :=
  let lines := content.splitOn "\n"
  match columns with
  | some w =>
    if w ≠ 0 then
      lines.foldl (fun prev next =>
        let length := (strip next).length
        prev + (if length > w then (length + w - 1) / w else 1)) 0
    else
      (content.splitOn "\n").length
  | none => (content.splitOn "\n").length

/-- Whether an `#execute` outcome is the fatal replay throw. -/
def isFatalReplay : ExecOutcome → Bool
  | .fatalReplay _ => true
  | _ => false

/-! ## Theorems about the validation pipeline -/

/-- Claim C1 (counterexample): with a validator that accepts every value and a
transform that returns `undefined`, `#validateValue` on the candidate
`"x"` leaves neither the error nor the resolved value set — the claimed
"exactly one of {error set, value set}" invariant fails precisely in the
case the claim includes (transform returning `undefined` on a value the
validator accepted). -/
theorem validateValue_neither_set_cex :
    ¬ exactlyOne
      (validateValue {} ⟨fun _ => .undef, fun _ => .bool true, .undef⟩ {}
        (.str "x")) := by
  decide

/-- Claim C1 (amended): after `#validateValue`, on the default-accepting path
the default is stored as the resolved value and a previously set error
is left untouched; on every other run the previous value and error are
cleared at the start (the result does not depend on the prior state),
and afterwards exactly one of {error set, value set} holds — unless the
effective validator accepted the value and the transform returned
`undefined`, in which case neither is set. -/
theorem validateValue_exactly_one (s : Settings) (w : Widget) (st : PState)
    (v : JSVal) :
    (v.truthy = false ∧ s.dflt ≠ .undef →
      validateValue s w st v = { st with value := s.dflt }) ∧
    (¬(v.truthy = false ∧ s.dflt ≠ .undef) →
      validateValue s w st v = validateValue s w {} v ∧
      (effValidate s w v = .bool true ∧ transformValue s w v = .undef →
        validateValue s w st v = { value := .undef, lastError := none }) ∧
      (¬(effValidate s w v = .bool true ∧ transformValue s w v = .undef) →
        exactlyOne (validateValue s w st v))) := by
  constructor
  · intro h
    simp [validateValue, h.1, h.2]
  · intro h
    refine ⟨?_, ?_, ?_⟩
    · simp only [validateValue, if_neg h]
    · rintro ⟨hval, htr⟩
      simp [validateValue, if_neg h, hval, htr]
    · intro hne
      simp only [validateValue, if_neg h]
      rcases hv : effValidate s w v with b | e
      · cases b
        · simp [exactlyOne]
        · have hne2 : transformValue s w v ≠ .undef := fun hc => hne ⟨hv, hc⟩
          simp [exactlyOne, hne2]
      · simp [exactlyOne]

/-- Claim C1 (witness for the amended theorem): concrete non-default run with
a rejecting validator — exactly one of {error, value} is set. -/
theorem validateValue_exactly_one_witness :
    exactlyOne
      (validateValue {} ⟨fun _ => .undef, fun _ => .bool false, .undef⟩ {}
        (.str "x")) :=
  ((validateValue_exactly_one {} ⟨fun _ => .undef, fun _ => .bool false, .undef⟩
      {} (.str "x")).2 (by decide)).2.2 (by decide)

/-- Claim C2: with a configured default `d` and an empty (`""`) or absent
(`undefined`) raw candidate, `#validateValue` stores `d` as the resolved
value, and the result is the same for arbitrary caller-supplied and
built-in validators/transforms — neither is invoked. -/
theorem validateValue_default_bypass (s₁ s₂ : Settings) (w₁ w₂ : Widget)
    (st : PState) (d v : JSVal) (hd : d ≠ .undef)
    (h₁ : s₁.dflt = d) (h₂ : s₂.dflt = d)
    (hv : v = .str "" ∨ v = .undef) :
    validateValue s₁ w₁ st v = { st with value := d } ∧
    validateValue s₁ w₁ st v = validateValue s₂ w₂ st v := by
  have ht : v.truthy = false := by
    rcases hv with h | h <;> subst h <;> rfl
  constructor
  · simp [validateValue, ht, h₁, hd]
  · simp [validateValue, ht, h₁, h₂, hd]

/-- Claim C2 (witness): default `"Ann"`, raw input `""`, two prompts whose
validators and transforms disagree everywhere — both resolve to
`"Ann"`. -/
theorem validateValue_default_bypass_witness :
    validateValue { dflt := .str "Ann" }
        ⟨fun _ => .undef, fun _ => .bool false, .undef⟩ {} (.str "") =
      { value := JSVal.str "Ann", lastError := none } ∧
    validateValue { dflt := .str "Ann" }
        ⟨fun _ => .undef, fun _ => .bool false, .undef⟩ {} (.str "") =
      validateValue
        { dflt := .str "Ann", validate := some fun _ => .str "nope",
          transform := some fun _ => .str "other" }
        ⟨fun v => v, fun _ => .bool true, .undef⟩ {} (.str "") :=
  validateValue_default_bypass { dflt := .str "Ann" }
    { dflt := .str "Ann", validate := some fun _ => .str "nope",
      transform := some fun _ => .str "other" }
    ⟨fun _ => .undef, fun _ => .bool false, .undef⟩
    ⟨fun v => v, fun _ => .bool true, .undef⟩
    {} (.str "Ann") (.str "") (by decide) rfl rfl (Or.inl rfl)

/-- Claim C3: for a candidate not taken by the default short-circuit, the
tri-state validation outcome is interpreted as: `false` sets the error
message exactly `"Invalid answer."`; a string result is stored verbatim
as the error; a `true` result runs the transform (caller-supplied if
present, else built-in) and stores its result as the resolved value. -/
theorem validateValue_tri_state (s : Settings) (w : Widget) (st : PState)
    (v : JSVal) (hnd : ¬(v.truthy = false ∧ s.dflt ≠ .undef)) :
    (effValidate s w v = .bool false →
      validateValue s w st v =
        { value := .undef, lastError := some "Invalid answer." }) ∧
    (∀ e, effValidate s w v = .str e →
      validateValue s w st v = { value := .undef, lastError := some e }) ∧
    (effValidate s w v = .bool true →
      validateValue s w st v =
        { value := transformValue s w v, lastError := none }) := by
  refine ⟨fun h => ?_, fun e h => ?_, fun h => ?_⟩ <;>
    simp [validateValue, if_neg hnd, h]

/-- Claim C3 (witness): a validator returning `"too short"` on input `"a"`
yields state error exactly `"too short"` and no resolved value. -/
theorem validateValue_tri_state_witness :
    validateValue { validate := some fun _ => .str "too short" }
        ⟨fun v => v, fun _ => .bool true, .undef⟩ {} (.str "a") =
      { value := JSVal.undef, lastError := some "too short" } :=
  (validateValue_tri_state { validate := some fun _ => .str "too short" }
      ⟨fun v => v, fun _ => .bool true, .undef⟩ {} (.str "a")
      (by decide)).2.1 "too short" rfl

/-! ## Theorems about the execute loop -/

/-- One unfolding of `execute` on positive fuel, with the intermediate
`let`-states inlined. -/
theorem execute_succ (s : Settings) (w : Widget) (n : Nat) (st : ExecState) :
    execute s w (n + 1) st =
      if st.injected ≠ .undef ∧ strTruthy st.ps.lastError = true then
        (.fatalReplay st.ps.lastError, st)
      else if st.injected ≠ .undef then
        if (validateValue s w { value := st.ps.value, lastError := none }
            st.injected).value = .undef then
          execute s w n
            { injected := st.injected,
              ps := validateValue s w { value := st.ps.value, lastError := none }
                st.injected,
              isFirstRun := false }
        else
          (.success (validateValue s w { value := st.ps.value, lastError := none }
              st.injected).value,
            { injected := .undef,
              ps := validateValue s w { value := st.ps.value, lastError := none }
                st.injected,
              isFirstRun := false })
      else
        (.awaitTerminal,
          { injected := st.injected,
            ps := { value := st.ps.value, lastError := none },
            isFirstRun := false }) := rfl

/-- Claim C4 (counterexample): a validator that rejects with the empty string
records an error (`#lastError = ""`), yet with the injected slot still
non-empty the next loop iteration does not abort — the guard tests
truthiness of `#lastError` and `""` is falsy, so the loop keeps
re-rendering and retrying until the fuel runs out instead of throwing. -/
theorem execute_empty_error_no_abort_cex :
    isFatalReplay
      (execute { validate := some fun _ => .str "" }
        ⟨fun v => v, fun _ => .bool true, .undef⟩ 5
        { injected := .str "a",
          ps := { value := .undef, lastError := some "" } }).1 = false ∧
    (execute { validate := some fun _ => .str "" }
        ⟨fun v => v, fun _ => .bool true, .undef⟩ 5
        { injected := .str "a",
          ps := { value := .undef, lastError := some "" } }).1 = .spin := by
  decide

/-- Claim C4 (amended): whenever the injected slot is non-empty and a
non-empty last error message is recorded at loop entry, the next
iteration of `#execute` throws the recorded error instead of rendering
and retrying. -/
theorem execute_fatal_on_replay (s : Settings) (w : Widget) (fuel : Nat)
    (st : ExecState) (e : String) (hinj : st.injected ≠ .undef)
    (herr : st.ps.lastError = some e) (hne : e ≠ "") :
    execute s w (fuel + 1) st = (.fatalReplay (some e), st) := by
  have ht : strTruthy st.ps.lastError = true := by
    simp [strTruthy, herr, hne]
  rw [execute, if_pos ⟨hinj, ht⟩, herr]

/-- Claim C4 (witness): injected value `"a"` with recorded error `"bad"` —
the call aborts at once with that error. -/
theorem execute_fatal_on_replay_witness :
    execute {} ⟨fun v => v, fun _ => .bool true, .undef⟩ 1
        { injected := .str "a",
          ps := { value := .undef, lastError := some "bad" } } =
      (.fatalReplay (some "bad"),
        { injected := .str "a",
          ps := { value := .undef, lastError := some "bad" } }) :=
  execute_fatal_on_replay {} ⟨fun v => v, fun _ => .bool true, .undef⟩ 0
    { injected := .str "a", ps := { value := .undef, lastError := some "bad" } }
    "bad" (by decide) rfl (by decide)

/-- Claim C5 (counterexample): an injected value `"a"` rejected by the
validator drives the invocation to the fatal replay error, yet the
process-wide injected slot still holds `"a"` afterwards — the slot is
cleared only on the success path, so a subsequent prompt invocation
would observe the stale injected value. -/
theorem execute_slot_not_cleared_cex :
    (execute { validate := some fun _ => .str "bad" }
        ⟨fun v => v, fun _ => .bool true, .undef⟩ 3
        { injected := .str "a" }).1 = .fatalReplay (some "bad") ∧
    (execute { validate := some fun _ => .str "bad" }
        ⟨fun v => v, fun _ => .bool true, .undef⟩ 3
        { injected := .str "a" }).2.injected = .str "a" := by
  decide

/-- Claim C5 (amended): the injected-value slot is cleared when the
invocation resolves successfully; on the fatal replay error the slot is
left unchanged, still holding the injected value. -/
theorem execute_slot_discipline (s : Settings) (w : Widget) (fuel : Nat)
    (st : ExecState) :
    (∀ v, (execute s w fuel st).1 = .success v →
      (execute s w fuel st).2.injected = .undef) ∧
    (∀ e, (execute s w fuel st).1 = .fatalReplay e →
      (execute s w fuel st).2.injected = st.injected) := by
  induction fuel generalizing st with
  | zero =>
    exact ⟨fun v h => by simp [execute] at h, fun e h => by simp [execute] at h⟩
  | succ n ih =>
    rw [execute_succ]
    by_cases h1 : st.injected ≠ .undef ∧ strTruthy st.ps.lastError = true
    · rw [if_pos h1]
      exact ⟨fun v h => by simp at h, fun e h => rfl⟩
    · rw [if_neg h1]
      by_cases h2 : st.injected ≠ .undef
      · rw [if_pos h2]
        by_cases h3 : (validateValue s w { value := st.ps.value, lastError := none }
            st.injected).value = .undef
        · rw [if_pos h3]
          exact ⟨fun v h => (ih _).1 v h, fun e h => (ih _).2 e h⟩
        · rw [if_neg h3]
          exact ⟨fun v h => rfl, fun e h => by simp at h⟩
      · rw [if_neg h2]
        exact ⟨fun v h => by simp at h, fun e h => by simp at h⟩

/-- Claim C5 (witness for the amended theorem): a successful injected run
ends with the slot cleared. -/
theorem execute_slot_discipline_witness :
    (execute {} ⟨fun v => v, fun _ => .bool true, .undef⟩ 1
      { injected := .str "a" }).2.injected = .undef :=
  (execute_slot_discipline {} ⟨fun v => v, fun _ => .bool true, .undef⟩ 1
    { injected := .str "a" }).1 (.str "a") (by decide)

/-! ## Theorems about rendering, key bindings and the read cycle -/

/-- Claim C6: with a known (truthy) terminal column count `W`, the
render line count is the sum over all logical newline-separated lines of
the per-line contribution — the ceiling of `L / W` for printable length
`L > W` and exactly one visual line otherwise (including `L = 0` and
`L = W`, for which the `if` takes the 1 branch); when the column count
cannot be determined the count is the number of logical lines only. -/
theorem renderLinesCount_spec (strip : String → String) (content : String)
    (w : Nat) (hw : 0 < w) :
    renderLinesCount strip (some w) content =
      ((content.splitOn "\n").map (fun line =>
        if (strip line).length > w then (strip line).length ⌈/⌉ w else 1)).sum ∧
    renderLinesCount strip none content = (content.splitOn "\n").length := by
  constructor
  · have hw0 : w ≠ 0 := Nat.pos_iff_ne_zero.mp hw
    simp only [renderLinesCount, if_pos hw0]
    rw [List.sum_eq_foldl, List.foldl_map]
    simp only [Nat.ceilDiv_eq_add_pred_div]
  · rfl

/-- Claim C6 (witness): the line-count specification instantiated at
width 1 and the single-line content `"ab"`. -/
theorem renderLinesCount_spec_witness :
    renderLinesCount id (some 1) "ab" =
      ((("ab" : String).splitOn "\n").map (fun line =>
        if (id line).length > 1 then (id line).length ⌈/⌉ 1 else 1)).sum ∧
    renderLinesCount id none "ab" = (("ab" : String).splitOn "\n").length :=
  renderLinesCount_spec id "ab" 1 (by decide)

/-- Claim C7: a caller-supplied `keys.submit` override replaces the
default submit bindings: with `submit` overridden to `["y"]` the
settings' submit binding set is `["y"]`, contains neither `"enter"` nor
`"return"`, and an enter key event (name `"enter"` or `"return"`,
sequence `"\r"` or `"\n"`) does not match the submit binding; with no
override the submit binding set is exactly `["enter", "return"]`. -/
theorem keys_override_replaces (ev : KeyCode)
    (hn : ev.name = some "enter" ∨ ev.name = some "return" ∨ ev.name = none)
    (hs : ev.sequence = some "\r" ∨ ev.sequence = some "\n" ∨ ev.sequence = none) :
    (getDefaultSettingsKeys (some { submit := some ["y"] })).submit = some ["y"] ∧
    (∀ bs, (getDefaultSettingsKeys (some { submit := some ["y"] })).submit = some bs →
      "enter" ∉ bs ∧ "return" ∉ bs) ∧
    isKeySubmit (some (getDefaultSettingsKeys (some { submit := some ["y"] }))) ev
      = false ∧
    (getDefaultSettingsKeys none).submit = some ["enter", "return"] := by
  refine ⟨rfl, ?_, ?_, rfl⟩
  · intro bs h
    have hbs : bs = ["y"] := by
      simpa [getDefaultSettingsKeys] using h.symm
    subst hbs
    decide
  · rcases hn with h | h | h <;> rcases hs with h2 | h2 | h2 <;>
      simp [isKeySubmit, getDefaultSettingsKeys, h, h2]

/-- Claim C7 (witness): the override conclusions at the concrete enter
key event with name `"enter"` and sequence `"\r"`. -/
theorem keys_override_replaces_witness :
    (getDefaultSettingsKeys (some { submit := some ["y"] })).submit = some ["y"] ∧
    (∀ bs, (getDefaultSettingsKeys (some { submit := some ["y"] })).submit = some bs →
      "enter" ∉ bs ∧ "return" ∉ bs) ∧
    isKeySubmit (some (getDefaultSettingsKeys (some { submit := some ["y"] })))
      { name := some "enter", sequence := some "\r" } = false ∧
    (getDefaultSettingsKeys none).submit = some ["enter", "return"] :=
  keys_override_replaces { name := some "enter", sequence := some "\r" }
    (Or.inl rfl) (Or.inl rfl)

/-- Claim C8 (counterexample): a read that fails (the reader's `read`
call rejects) propagates out of `#readChar` before the `setRaw(false)`
call — the cycle completes exceptionally with raw mode still enabled,
refuting "released on every exit path, including a read that fails". -/
theorem readChar_raw_leak_cex :
    ((readChar true (.err "interrupted") { raw := false }).2).raw = true ∧
    (readChar true (.err "interrupted") { raw := false }).1
      = .error "interrupted" :=
  ⟨rfl, rfl⟩

/-- Claim C8 (amended): on an interactive terminal, raw mode is
acquired before the read and released immediately after it on every
non-throwing exit of the read attempt — any byte count (including a
zero-byte read) and an end-of-stream (`null`) read; only a read that
throws leaves raw mode enabled. -/
theorem readChar_raw_scoped (t : TermState) (data : List Nat) (e : String) :
    ((readChar true (.bytes data) t).2).raw = false ∧
    ((readChar true .eof t).2).raw = false ∧
    ((readChar true (.err e) t).2).raw = true :=
  ⟨rfl, rfl, rfl⟩

/-- Claim C9: for every key event with name `"c"` and the ctrl modifier,
`handleEvent` emits exactly the trace erase-render, restore cursor
visibility, terminate with exit status 130 — in that order, with cursor
restoration strictly before termination — and no submit/validation
action occurs, whatever the configured key bindings are. -/
theorem handleEvent_interrupt (keys : Option GenericPromptKeys) (ev : KeyCode)
    (hn : ev.name = some "c") (hc : ev.ctrl = true) :
    handleEvent keys ev = [.clear, .cursorShow, .exitProcess 130] ∧
    (handleEvent keys ev).indexOf .cursorShow
      < (handleEvent keys ev).indexOf (.exitProcess 130) ∧
    PromptAction.submitValidate ∉ handleEvent keys ev := by
  have h : handleEvent keys ev = [.clear, .cursorShow, .exitProcess 130] := by
    simp [handleEvent, hn, hc]
  refine ⟨h, ?_, ?_⟩ <;> rw [h] <;> decide

/-- Claim C9 (witness): the interrupt trace at the concrete ctrl+c
event with no key bindings configured. -/
theorem handleEvent_interrupt_witness :
    handleEvent none { name := some "c", ctrl := true }
      = [.clear, .cursorShow, .exitProcess 130] :=
  (handleEvent_interrupt none { name := some "c", ctrl := true } rfl rfl).1

/-- Claim C10: a `null` (end-of-stream) read makes `#readChar` return
the entire fixed 8-byte buffer of NUL bytes, so `#readKey` invokes the
key decoder on those 8 NUL bytes rather than taking the empty
"no event this cycle" branch; only a zero-byte read (`nread = 0`)
produces the empty result that `#readKey` maps to no events. -/
theorem readKey_eof_full_buffer (parse : List Nat → List KeyCode)
    (isTty : Bool) (t : TermState) :
    (readChar isTty .eof t).1 = .ok (List.replicate 8 0) ∧
    readKey parse (List.replicate 8 0) = parse (List.replicate 8 0) ∧
    (readChar isTty (.bytes []) t).1 = .ok [] ∧
    readKey parse [] = [] := by
  refine ⟨?_, ?_, ?_, ?_⟩
  · cases isTty <;> rfl
  · simp [readKey]
  · cases isTty <;> rfl
  · rfl
